import Mathlib

/-!
Verification development for the ethereal CLI core (wallet location, account
resolution, replacement-transaction building, offline emission).

The Go sources are embedded shallowly:

* file-system paths are modelled as their component lists (`Path`); the Go
  code builds every path with `filepath.Join`, modelled by appending
  components, so a multi-component literal such as
  `"AppData\\Roaming\\Parity\\Ethereum\\keys"` appears here as its component
  list;
* `math/big` integers are modelled as `Int`; `big.Int.Div` is Euclidean
  division, modelled as `Int.ediv`;
* calls into external collaborators (the RPC client, the keystore contents on
  disk, the Ledger hub, ENS resolution, ABI packing, the RLP encoder, the
  signing backend) are fields of an environment record: each such field holds
  the result the collaborator would return for the one invocation being
  modelled;
* fatal checks (`cli.Assert`, `cli.ErrCheck`, both in the repository but
  outside the embedded sources) terminate the run with exit status 1; they are
  modelled by the `Outcome.failed` constructor.
-/

namespace Ethereal

deriving instance DecidableEq for Except

/-- Account addresses, abstracted to their identity (20-byte values compared
by equality in the source). -/
abbrev Address := Nat

/-- A file-system path as its list of components. -/
abbrev Path := List String

/-- Model of `filepath.Join(dir, elem)` for a single trailing component. -/
def filepathJoin (dir : Path) (elem : String) : Path := dir ++ [elem]

/-- Chain identifier of `params.MainnetChainConfig`. -/
def mainnetChainID : Nat := 1

/-- Chain identifier of `params.TestnetChainConfig` (Ropsten). -/
def testnetChainID : Nat := 3

/-- Chain identifier of `params.RinkebyChainConfig`. -/
def rinkebyChainID : Nat := 4

/-- Chain identifier of `params.GoerliChainConfig`. -/
def goerliChainID : Nat := 5

/-- The geth keystore directory computed by `obtainGethWallet` and, with the
identical duplicated chained conditional, by `obtainGethWallets`
(src/cli/wallet.go lines 86-100 and 110-124).  Note that the guards of the
`volta` and `energyweb` branches repeat the Goerli comparison of the third
`else if`. -/
def gethKeydir (dataDir : Path) (chainID : Nat) : Path :=
  let keydir := dataDir
  let keydir :=
    if chainID = mainnetChainID then keydir
    else if chainID = testnetChainID then filepathJoin keydir "testnet"
    else if chainID = rinkebyChainID then filepathJoin keydir "rinkeby"
    else if chainID = goerliChainID then filepathJoin keydir "goerli"
    else if chainID = goerliChainID then filepathJoin keydir "volta"
    else if chainID = goerliChainID then filepathJoin keydir "energyweb"
    else keydir
  filepathJoin keydir "keystore"

/-- The three operating-system branches of the Parity keystore root
(src/cli/wallet.go lines 136-144 and 165-173): the home directory extended by
an OS-specific component sequence, or the fatal unsupported-OS error. -/
def parityOSKeydir (goos : String) (home : Path) : Except String Path :=
  if goos = "windows" then
    .ok (home ++ ["AppData", "Roaming", "Parity", "Ethereum", "keys"])
  else if goos = "darwin" then
    .ok (home ++ ["Library", "Application Support", "io.parity.ethereum", "keys"])
  else if goos = "linux" then
    .ok (home ++ [".local", "share", "io.parity.ethereum", "keys"])
  else
    .error "Unsupported operating system"

/-- The chain-specific subdirectory appended to the Parity keystore root
(src/cli/wallet.go lines 146-150 and 175-179): `ethereum` for mainnet, `test`
for testnet, nothing for any other chain. -/
def parityChainKeydir (keydir : Path) (chainID : Nat) : Path :=
  if chainID = mainnetChainID then filepathJoin keydir "ethereum"
  else if chainID = testnetChainID then filepathJoin keydir "test"
  else keydir

/-- The full Parity key directory resolution shared by `obtainParityWallet`
and `obtainParityWallets`: home-directory lookup, the OS branch, then the
chain subdirectory. -/
def parityKeydir (homeDirResult : Except String Path) (goos : String)
    (chainID : Nat) : Except String Path :=
  match homeDirResult with
  | .error _ => .error "Failed to find home directory"
  | .ok home =>
    match parityOSKeydir goos home with
    | .error e => .error e
    | .ok keydir => .ok (parityChainKeydir keydir chainID)

/-- A wallet as seen by the account manager: a local keystore wallet (one per
key file, carrying its key directory and account) or a hardware Ledger wallet
carrying its derived accounts. -/
inductive Wallet where
  | keystore (keydir : Path) (account : Address)
  | ledger (accounts : List Address)
deriving DecidableEq

/-- Environment of one invocation of the wallet locator: the results every
external collaborator would report. -/
structure WalletEnv where
  /-- Result of `cli.DefaultDataDir()`. -/
  dataDir : Path
  /-- Result of `homedir.Dir()`; an error when the home directory cannot be
  found. -/
  homeDir : Except String Path
  /-- Value of `runtime.GOOS`. -/
  goos : String
  /-- The chain identifier of the invocation. -/
  chainID : Nat
  /-- The accounts of the key files in the keystore rooted at a given path,
  in listing order (one wallet per key file); a missing directory reports the
  empty list. -/
  keystoreFiles : Path → List Address
  /-- Result of `usbwallet.NewLedgerHub()` followed by the open-and-derive
  loop: the accounts of each hardware wallet, or the hub discovery error. -/
  ledgerHub : Except String (List (List Address))

/-- The wallets reported by a keystore backend: one wallet per key file. -/
def keystoreWallets (keydir : Path) (files : List Address) : List Wallet :=
  files.map (Wallet.keystore keydir)

/-- Model of `accounts.Manager.Find` over a keystore backend: the first
wallet whose account is the target, or the unknown-account error. -/
def managerFind (keydir : Path) (files : List Address) (address : Address) :
    Except String Wallet :=
  match files.find? (fun a => a = address) with
  | some a => .ok (Wallet.keystore keydir a)
  | none => .error "unknown account"

/-- src/cli/wallet.go lines 85-107: look up an address in the geth keystore
for the chain (the source computes the key directory once; it is repeated
here). -/
def obtainGethWallet (env : WalletEnv) (address : Address) : Except String Wallet :=
  managerFind (gethKeydir env.dataDir env.chainID)
    (env.keystoreFiles (gethKeydir env.dataDir env.chainID)) address

/-- src/cli/wallet.go lines 109-129: list the wallets of the geth keystore
for the chain.  Never an error. -/
def obtainGethWallets (env : WalletEnv) : Except String (List Wallet) :=
  .ok (keystoreWallets (gethKeydir env.dataDir env.chainID)
    (env.keystoreFiles (gethKeydir env.dataDir env.chainID)))

/-- src/cli/wallet.go lines 131-158: look up an address in the Parity
keystore for the chain; fails on home-directory or OS resolution failure. -/
def obtainParityWallet (env : WalletEnv) (address : Address) : Except String Wallet :=
  match parityKeydir env.homeDir env.goos env.chainID with
  | .error e => .error e
  | .ok keydir => managerFind keydir (env.keystoreFiles keydir) address

/-- src/cli/wallet.go lines 160-185: list the wallets of the Parity keystore
for the chain. -/
def obtainParityWallets (env : WalletEnv) : Except String (List Wallet) :=
  match parityKeydir env.homeDir env.goos env.chainID with
  | .error e => .error e
  | .ok keydir => .ok (keystoreWallets keydir (env.keystoreFiles keydir))

/-- src/cli/wallet.go lines 187-208: discover the Ledger hub and list its
wallets (after the open-and-derive loop); propagates the hub discovery
error. -/
def obtainLedgerWallets (env : WalletEnv) : Except String (List Wallet) :=
  match env.ledgerHub with
  | .error e => .error e
  | .ok hubWallets => .ok (hubWallets.map Wallet.ledger)

/-- src/cli/wallet.go lines 36-58, `ObtainWallets`: enumerate geth, Parity
and Ledger backends in order, aborting with the first error. -/
def ObtainWallets (env : WalletEnv) : Except String (List Wallet) :=
  match obtainGethWallets env with
  | .error e => .error e
  | .ok gethWallets =>
    match obtainParityWallets env with
    | .error e => .error e
    | .ok parityWallets =>
      match obtainLedgerWallets env with
      | .error e => .error e
      | .ok ledgerWallets => .ok (gethWallets ++ parityWallets ++ ledgerWallets)

/-- src/cli/wallet.go lines 71-83, `ObtainWallet`: try the geth keystore,
then the Parity keystore, with any earlier error downgraded to a non-match;
fail otherwise. -/
def ObtainWallet (env : WalletEnv) (address : Address) : Except String Wallet :=
  match obtainGethWallet env address with
  | .ok wallet => .ok wallet
  | .error _ =>
    match obtainParityWallet env address with
    | .ok wallet => .ok wallet
    | .error _ => .error "failed to obtain wallet"

/-- A wallet as the account resolver sees it: its listed accounts plus the
backend signing operation `SignDataWithPassphrase`
(account, passphrase, mime type, data). -/
structure SigningWallet where
  accounts : List Address
  signData : Address → String → String → List Nat → Except String (List Nat)

/-- The fixed, publicly known, constant 32-zero-byte payload signed by
`VerifyPassphrase` (src/cli/wallet.go line 226). -/
def verifyData : List Nat := List.replicate 32 0

/-- Whether an `Except` value is a success. -/
def exceptIsOk {ε α : Type} : Except ε α → Bool
  | .ok _ => true
  | .error _ => false

/-- src/cli/wallet.go lines 224-228, `VerifyPassphrase`: request a detached
signature over the constant payload and report only whether signing
succeeded; the signature itself is dropped. -/
def VerifyPassphrase (wallet : SigningWallet) (account : Address)
    (passphrase : String) : Bool :=
  exceptIsOk (wallet.signData account passphrase "application/octet-stream" verifyData)

/-- The account loop of `ObtainAccount` (src/cli/wallet.go lines 212-220):
return at the first account equal to the target, verifying a non-empty
passphrase there; report the not-found error past the end. -/
def obtainAccountIn (wallet : SigningWallet) (address : Address)
    (passphrase : String) : List Address → Except String Address
  | [] => .error "account not found"
  | account :: rest =>
    if address = account then
      if passphrase ≠ "" ∧ VerifyPassphrase wallet account passphrase = false then
        .error "invalid passphrase"
      else .ok account
    else obtainAccountIn wallet address passphrase rest

/-- src/cli/wallet.go lines 210-222, `ObtainAccount`. -/
def ObtainAccount (wallet : SigningWallet) (address : Address)
    (passphrase : String) : Except String Address :=
  obtainAccountIn wallet address passphrase wallet.accounts

/-- An unsigned transaction: the concrete fields of `types.Transaction` used
by the commands (a `none` destination is a contract creation). -/
structure Tx where
  toAddr : Option Address
  value : Int
  gasLimit : Nat
  gasPrice : Int
  nonce : Nat
  data : List Nat
deriving DecidableEq

/-- A signed transaction: the unsigned fields, the signing account and the
signature bytes. -/
structure SignedTx where
  tx : Tx
  sender : Address
  sig : List Nat
deriving DecidableEq

/-- Modelled from the spec: `createSignedTransaction` (package cmd, not among
the embedded sources) assembles an UnsignedTransaction from its arguments
plus the globally resolved nonce and gas price, requests a detached signature
from the owning backend, and returns an immutable signed value carrying the
original fields plus the signature (spec sections 4.3 and 4.4: the signer
never mutates the unsigned transaction). -/
def createSignedTransaction (sign : Address → Tx → Except String (List Nat))
    (nonce : Nat) (gasPrice : Int) (fromAddress : Address)
    (toAddress : Option Address) (value : Int) (gasLimit : Nat)
    (callData : List Nat) : Except String SignedTx :=
  match sign fromAddress ⟨toAddress, value, gasLimit, gasPrice, nonce, callData⟩ with
  | .error e => .error e
  | .ok sig =>
    .ok ⟨⟨toAddress, value, gasLimit, gasPrice, nonce, callData⟩, fromAddress, sig⟩

/-- Hexadecimal digit of a value below 16, lowercase as in `encoding/hex`. -/
def hexDigit (n : Nat) : Char :=
  if n < 10 then Char.ofNat (48 + n) else Char.ofNat (87 + n)

/-- The two lowercase hexadecimal digits of one byte. -/
def hexEncodeByte (b : Nat) : List Char := [hexDigit (b / 16), hexDigit (b % 16)]

/-- Model of `hex.EncodeToString`. -/
def hexEncode (bytes : List Nat) : String := ⟨(bytes.map hexEncodeByte).flatten⟩

/-- Terminal outcome of one command run: a fatal `cli.Assert` or
`cli.ErrCheck` failure (exit status 1), the offline early exit
(`os.Exit(_exit_success)`) carrying the lines it printed, or a broadcast
transaction handed to `handleSubmittedTransaction`. -/
inductive Outcome where
  | failed (msg : String)
  | offlineDone (signed : SignedTx) (output : List String)
  | submitted (signed : SignedTx)
deriving DecidableEq

/-- Exit status of an outcome: 1 for a fatal failure, 0 for the offline early
exit; after a broadcast the status (0 or 2) is decided later by
`handleSubmittedTransaction`. -/
def exitStatus : Outcome → Option Nat
  | .failed _ => some 1
  | .offlineDone _ _ => some 0
  | .submitted _ => none

/-- The signed transaction a run built, when it built one. -/
def builtTransaction : Outcome → Option SignedTx
  | .failed _ => none
  | .offlineDone signed _ => some signed
  | .submitted signed => some signed

/-- Environment of one run of the transaction up command: the flag values and
the results every external collaborator would report. -/
structure UpEnv where
  /-- The --transaction flag. -/
  transactionStr : String
  /-- Result of `client.TransactionByHash`: the transaction and its pending
  flag, or the lookup error. -/
  txByHash : Except String (Tx × Bool)
  /-- Value of `viper.GetString("gasprice")`: `none` models the empty string
  (no --gasprice flag), `some p` a supplied flag whose parsed value is the
  global `gasPrice`. -/
  gaspriceArg : Option Int
  /-- Result of `txFrom`: the recoverable sender of a transaction. -/
  txFrom : Tx → Except String Address
  /-- The owning backend signing operation used by
  `createSignedTransaction`. -/
  sign : Address → Tx → Except String (List Nat)
  /-- The canonical RLP encoding of a signed transaction
  (`types.Transaction.EncodeRLP`). -/
  encodeRLP : SignedTx → List Nat
  /-- The --offline flag. -/
  offline : Bool
  /-- The --quiet flag. -/
  quiet : Bool
  /-- Result of `client.SendTransaction`. -/
  sendResult : Except String Unit

/-- src/cmd/transactionup.go line 51: the replacement minimum gas price,
`tx.GasPrice() + tx.GasPrice()/10 + 1` with `big.Int.Div` (Euclidean
division). -/
def minGasPrice (gasPrice : Int) : Int := gasPrice + Int.ediv gasPrice 10 + 1

/-- src/cmd/transactionup.go lines 60-85: the tail of the up command after
gas price resolution — sender recovery, signing with the nonce of the
original transaction, then the offline block or the network broadcast. -/
def upFinish (env : UpEnv) (tx : Tx) (gasPrice : Int) : Outcome :=
  match env.txFrom tx with
  | .error _ => .failed "Failed to obtain from address"
  | .ok fromAddress =>
    match createSignedTransaction env.sign tx.nonce gasPrice fromAddress
        tx.toAddr tx.value tx.gasLimit tx.data with
    | .error _ => .failed "Failed to create transaction"
    | .ok signedTx =>
      if env.offline then
        .offlineDone signedTx
          (if env.quiet then []
           else ["0x" ++ hexEncode (env.encodeRLP signedTx)])
      else
        match env.sendResult with
        | .error _ => .failed "Failed to send transaction"
        | .ok _ => .submitted signedTx

/-- src/cmd/transactionup.go lines 42-86: the transaction up command. -/
def transactionUpRun (env : UpEnv) : Outcome :=
  if env.transactionStr = "" then .failed "--transaction is required"
  else
    match env.txByHash with
    | .error _ => .failed "Failed to obtain transaction"
    | .ok (tx, pending) =>
      if pending then
        match env.gaspriceArg with
        | none => upFinish env tx (minGasPrice tx.gasPrice)
        | some gasPrice =>
          if gasPrice > minGasPrice tx.gasPrice then upFinish env tx gasPrice
          else .failed "Gas price must be at least the replacement minimum"
      else .failed "Transaction has already been mined"

/-- Environment of one run of the contract send command.  The pre-build
stages (ENS resolution, call parsing, ABI packing, amount parsing) are
external collaborators whose results the record holds; the verbose debug line
printed by `outputIf` is rendering, outside the modelled output. -/
structure SendEnv where
  /-- The --from flag. -/
  fromStr : String
  /-- Result of `ens.Resolve` on the from argument. -/
  resolveFrom : Except String Address
  /-- The --call flag. -/
  callStr : String
  /-- Result of `funcparser.ParseCall`. -/
  parseCall : Except String Unit
  /-- Result of `contract.Abi.Pack`: the call data. -/
  pack : Except String (List Nat)
  /-- The --contract flag. -/
  contractStr : String
  /-- Result of `ens.Resolve` on the contract argument. -/
  resolveContract : Except String Address
  /-- The --amount flag: `none` models the empty string (amount 0), `some r`
  a supplied flag with `string2eth.StringToWei` result `r`. -/
  amountArg : Option (Except String Int)
  /-- The global `gasLimit`. -/
  gasLimit : Nat
  /-- The nonce resolved inside `createSignedTransaction` (next pending
  unless overridden, per spec section 4.3). -/
  nonce : Nat
  /-- The gas price resolved inside `createSignedTransaction` (explicit or
  network-suggested, per spec section 4.3). -/
  gasPrice : Int
  /-- The owning backend signing operation. -/
  sign : Address → Tx → Except String (List Nat)
  /-- The canonical RLP encoding of a signed transaction. -/
  encodeRLP : SignedTx → List Nat
  /-- The --offline flag. -/
  offline : Bool
  /-- The --quiet flag. -/
  quiet : Bool
  /-- Result of `client.SendTransaction`. -/
  sendResult : Except String Unit

/-- src/cmd/contractsend.go lines 48-96: the contract send command. -/
def contractSendRun (env : SendEnv) : Outcome :=
  if env.fromStr = "" then .failed "--from is required"
  else
    match env.resolveFrom with
    | .error _ => .failed "Failed to resolve from address"
    | .ok fromAddress =>
      if env.callStr = "" then .failed "--call is required"
      else
        match env.parseCall with
        | .error _ => .failed "Failed to parse call"
        | .ok _ =>
          match env.pack with
          | .error _ => .failed "Failed to convert arguments"
          | .ok callData =>
            if env.contractStr = "" then .failed "--contract is required"
            else
              match env.resolveContract with
              | .error _ => .failed "Failed to resolve contract address"
              | .ok contractAddress =>
                match (match env.amountArg with
                       | none => Except.ok 0
                       | some r => r) with
                | .error _ => .failed "Invalid amount"
                | .ok amount =>
                  match createSignedTransaction env.sign env.nonce env.gasPrice
                      fromAddress (some contractAddress) amount env.gasLimit
                      callData with
                  | .error _ => .failed "Failed to create contract method transaction"
                  | .ok signedTx =>
                    if env.offline then
                      .offlineDone signedTx
                        (if env.quiet then []
                         else ["0x" ++ hexEncode (env.encodeRLP signedTx)])
                    else
                      match env.sendResult with
                      | .error _ => .failed "Failed to send contract method transaction"
                      | .ok _ => .submitted signedTx

example : hexEncode [222, 173, 190, 239] = "deadbeef" := by decide

example : minGasPrice 1000000000 = 1100000001 := by decide

example :
    gethKeydir ["h", ".ethereum"] 5 = ["h", ".ethereum", "goerli", "keystore"] := by decide

example :
    parityKeydir (.ok ["h"]) "linux" 1 =
      .ok ["h", ".local", "share", "io.parity.ethereum", "keys", "ethereum"] := by decide

/-- The unsigned fields a replacement run built from transaction `tx` and gas
price `gp`: every field of the original except the gas price. -/
def replacementTx (tx : Tx) (gp : Int) : Tx :=
  ⟨tx.toAddr, tx.value, tx.gasLimit, gp, tx.nonce, tx.data⟩

lemma upFinish_built (env : UpEnv) (tx : Tx) (gp : Int) (s : SignedTx)
    (h : builtTransaction (upFinish env tx gp) = some s) :
    s.tx = replacementTx tx gp ∧ env.txFrom tx = .ok s.sender := by
  unfold upFinish createSignedTransaction at h
  split at h
  · simp [builtTransaction] at h
  next fa heq =>
    split at h
    · simp [builtTransaction] at h
    next sg hsg =>
      have hsgeq : sg.tx = replacementTx tx gp ∧ sg.sender = fa := by
        split at hsg
        · exact absurd hsg (by simp)
        · injection hsg with h'
          subst h'
          exact ⟨rfl, rfl⟩
      split at h
      · simp only [builtTransaction, Option.some.injEq] at h
        exact ⟨by rw [← h, hsgeq.1], by rw [heq, ← h, hsgeq.2]⟩
      · split at h
        · simp [builtTransaction] at h
        · simp only [builtTransaction, Option.some.injEq] at h
          exact ⟨by rw [← h, hsgeq.1], by rw [heq, ← h, hsgeq.2]⟩

lemma transactionUpRun_pending_auto (env : UpEnv) (tx : Tx)
    (hts : env.transactionStr ≠ "") (htx : env.txByHash = .ok (tx, true))
    (hnone : env.gaspriceArg = none) :
    transactionUpRun env = upFinish env tx (minGasPrice tx.gasPrice) := by
  simp [transactionUpRun, hts, htx, hnone]

lemma transactionUpRun_pending_supplied (env : UpEnv) (tx : Tx) (p : Int)
    (hts : env.transactionStr ≠ "") (htx : env.txByHash = .ok (tx, true))
    (hp : env.gaspriceArg = some p) :
    transactionUpRun env =
      if p > minGasPrice tx.gasPrice then upFinish env tx p
      else .failed "Gas price must be at least the replacement minimum" := by
  simp [transactionUpRun, hts, htx, hp]

/-- Claim C1: for every positive integer gas price g, the replacement minimum
m of the up command is g + g/10 + 1 with truncating integer division (hence
m > g; g = 1000000000 gives 1100000001 and g = 5 gives 6); m is used as the
new gas price when no --gasprice flag is supplied, and with a supplied price
p the build proceeds only under the hard precondition p > m. -/
theorem C1_replacement_minimum (g : Int) (hg : 0 < g) :
    minGasPrice g = g + Int.tdiv g 10 + 1 ∧
    g < minGasPrice g ∧
    minGasPrice 1000000000 = 1100000001 ∧
    minGasPrice 5 = 6 ∧
    (∀ (env : UpEnv) (tx : Tx), env.transactionStr ≠ "" →
      env.txByHash = .ok (tx, true) →
      (env.gaspriceArg = none →
        transactionUpRun env = upFinish env tx (minGasPrice tx.gasPrice) ∧
        ∀ s, builtTransaction (transactionUpRun env) = some s →
          s.tx.gasPrice = minGasPrice tx.gasPrice) ∧
      (∀ p, env.gaspriceArg = some p →
        (p > minGasPrice tx.gasPrice →
          transactionUpRun env = upFinish env tx p ∧
          ∀ s, builtTransaction (transactionUpRun env) = some s →
            s.tx.gasPrice = p) ∧
        (¬ p > minGasPrice tx.gasPrice →
          transactionUpRun env =
            .failed "Gas price must be at least the replacement minimum"))) := by
  have hdiv : minGasPrice g = g + Int.tdiv g 10 + 1 ∧ g < minGasPrice g := by
    rcases g with n | n
    · constructor
      · rfl
      · have h10 : Int.ediv (Int.ofNat n) 10 = Int.ofNat (n / 10) := rfl
        have hnn : (0 : Int) ≤ Int.ofNat (n / 10) := Int.ofNat_nonneg _
        unfold minGasPrice
        rw [h10]
        omega
    · exact absurd hg (by simp)
  refine ⟨hdiv.1, hdiv.2, by decide, by decide, ?_⟩
  intro env tx hts htx
  constructor
  · intro hnone
    have hrun := transactionUpRun_pending_auto env tx hts htx hnone
    refine ⟨hrun, ?_⟩
    intro s hs
    rw [hrun] at hs
    have := (upFinish_built env tx (minGasPrice tx.gasPrice) s hs).1
    rw [this]
    rfl
  · intro p hp
    have hrun := transactionUpRun_pending_supplied env tx p hts htx hp
    constructor
    · intro hgt
      rw [if_pos hgt] at hrun
      refine ⟨hrun, ?_⟩
      intro s hs
      rw [hrun] at hs
      have := (upFinish_built env tx p s hs).1
      rw [this]
      rfl
    · intro hle
      rw [if_neg hle] at hrun
      exact hrun

/-- Witness for C1 at g = 5. -/
theorem C1_replacement_minimum_witness :
    minGasPrice 5 = 5 + Int.tdiv 5 10 + 1 ∧ (5 : Int) < minGasPrice 5 :=
  ⟨(C1_replacement_minimum 5 (by decide)).1, (C1_replacement_minimum 5 (by decide)).2.1⟩

/-- The geth keystore directory table the spec describes once the two
unreachable branches are removed: mainnet and every unrecognized chain map to
the plain keystore subdirectory, testnet, Rinkeby and Goerli to their own
subdirectories, and no chain to volta or energyweb. -/
def gethKeydirTable (dataDir : Path) (chainID : Nat) : Path :=
  if chainID = mainnetChainID then filepathJoin dataDir "keystore"
  else if chainID = testnetChainID then
    filepathJoin (filepathJoin dataDir "testnet") "keystore"
  else if chainID = rinkebyChainID then
    filepathJoin (filepathJoin dataDir "rinkeby") "keystore"
  else if chainID = goerliChainID then
    filepathJoin (filepathJoin dataDir "goerli") "keystore"
  else filepathJoin dataDir "keystore"

/-- Claim C4: the geth keystore directory of `obtainGethWallet` and
`obtainGethWallets` never selects the volta or energyweb subdirectory: the
guards of those branches repeat the Goerli comparison of an earlier branch,
so the computed directory always agrees with the table that omits them, the
Goerli identifier selects the goerli subdirectory, and no chain identifier
produces the volta or energyweb directory. -/
theorem C4_volta_energyweb_unreachable (dataDir : Path) (chainID : Nat) :
    gethKeydir dataDir chainID = gethKeydirTable dataDir chainID ∧
    gethKeydir dataDir goerliChainID =
      filepathJoin (filepathJoin dataDir "goerli") "keystore" ∧
    gethKeydir dataDir chainID ≠
      filepathJoin (filepathJoin dataDir "volta") "keystore" ∧
    gethKeydir dataDir chainID ≠
      filepathJoin (filepathJoin dataDir "energyweb") "keystore" := by
  refine ⟨?_, by simp [gethKeydir, goerliChainID, mainnetChainID, testnetChainID,
    rinkebyChainID], ?_, ?_⟩
  · unfold gethKeydir gethKeydirTable
    split_ifs <;> rfl
  · unfold gethKeydir filepathJoin
    split_ifs <;> simp [List.append_assoc]
  · unfold gethKeydir filepathJoin
    split_ifs <;> simp [List.append_assoc]

/-- Witness for C4 at a concrete data directory and the Goerli identifier. -/
theorem C4_volta_energyweb_unreachable_witness :
    gethKeydir ["d"] goerliChainID =
      filepathJoin (filepathJoin ["d"] "goerli") "keystore" :=
  (C4_volta_energyweb_unreachable ["d"] goerliChainID).2.1

/-- Claim C10: for every chain identifier matching none of the recognized
networks, wallet path resolution does not fail: the geth keystore directory
falls back to the base data directory joined directly with the keystore
subdirectory (the same directory as mainnet), the Parity key directory
receives no chain-specific subdirectory at all, and keystore enumeration
still succeeds. -/
theorem C10_unknown_chain_fallback (dataDir keydir : Path) (chainID : Nat)
    (env : WalletEnv)
    (h1 : chainID ≠ mainnetChainID) (h2 : chainID ≠ testnetChainID)
    (h3 : chainID ≠ rinkebyChainID) (h4 : chainID ≠ goerliChainID) :
    gethKeydir dataDir chainID = filepathJoin dataDir "keystore" ∧
    gethKeydir dataDir chainID = gethKeydir dataDir mainnetChainID ∧
    parityChainKeydir keydir chainID = keydir ∧
    obtainGethWallets env =
      .ok (keystoreWallets (gethKeydir env.dataDir env.chainID)
        (env.keystoreFiles (gethKeydir env.dataDir env.chainID))) := by
  refine ⟨?_, ?_, ?_, rfl⟩
  · simp [gethKeydir, h1, h2, h3, h4]
  · simp [gethKeydir, h1, h2, h3, h4]
  · simp [parityChainKeydir, h1, h2]

/-- Witness for C10 at chain identifier 42. -/
theorem C10_unknown_chain_fallback_witness :
    gethKeydir ["d"] 42 = filepathJoin ["d"] "keystore" ∧
    gethKeydir ["d"] 42 = gethKeydir ["d"] mainnetChainID ∧
    parityChainKeydir ["k"] 42 = ["k"] ∧
    obtainGethWallets ⟨["d"], .ok ["h"], "linux", 42, fun _ => [], .ok []⟩ =
      .ok (keystoreWallets (gethKeydir ["d"] 42) []) :=
  C10_unknown_chain_fallback ["d"] ["k"] 42
    ⟨["d"], .ok ["h"], "linux", 42, fun _ => [], .ok []⟩
    (by decide) (by decide) (by decide) (by decide)

/-- Environment of the C3 counterexample: the keystores on disk are empty and
the hardware hub reports one wallet holding address 7. -/
def envC3 : WalletEnv :=
  ⟨["home", "u", ".ethereum"], .ok ["home", "u"], "linux", mainnetChainID,
    fun _ => [], .ok [[7]]⟩

/-- Claim C3 counterexample: address 7 is reported by the hardware (Ledger)
backend, so under the claimed search order ObtainWallet would return the
hardware wallet; instead it fails with the wallet-not-found error, because
the hardware backend is never consulted. -/
theorem C3_counterexample :
    obtainLedgerWallets envC3 = .ok [Wallet.ledger [7]] ∧
    ObtainWallet envC3 7 = .error "failed to obtain wallet" := by decide

/-- Claim C3 amended: ObtainWallet searches only the two local keystore
backends, geth first and then Parity, and returns the first match; an error
in the geth backend is downgraded to a non-match rather than ending the
search; if neither local backend yields the address it fails with the
wallet-not-found error after both attempts; the hardware backend is never
consulted, so its contents cannot change the result. -/
theorem C3_local_backend_order (env : WalletEnv) (address : Address) :
    (∀ w, obtainGethWallet env address = .ok w →
      ObtainWallet env address = .ok w) ∧
    (∀ e w, obtainGethWallet env address = .error e →
      obtainParityWallet env address = .ok w →
      ObtainWallet env address = .ok w) ∧
    (∀ e e', obtainGethWallet env address = .error e →
      obtainParityWallet env address = .error e' →
      ObtainWallet env address = .error "failed to obtain wallet") ∧
    (∀ hub, ObtainWallet { env with ledgerHub := hub } address =
      ObtainWallet env address) := by
  refine ⟨?_, ?_, ?_, ?_⟩
  · intro w hw
    unfold ObtainWallet
    rw [hw]
  · intro e w hg hp
    unfold ObtainWallet
    rw [hg, hp]
  · intro e e' hg hp
    unfold ObtainWallet
    rw [hg, hp]
  · intro hub
    rfl

/-- Witness for C3 amended: the geth backend holds address 4. -/
theorem C3_local_backend_order_witness :
    ObtainWallet ⟨["d"], .ok ["h"], "linux", 1,
        fun _ => [4], .ok []⟩ 4 =
      .ok (Wallet.keystore (gethKeydir ["d"] 1) 4) :=
  (C3_local_backend_order ⟨["d"], .ok ["h"], "linux", 1, fun _ => [4], .ok []⟩ 4).1
    (Wallet.keystore (gethKeydir ["d"] 1) 4) (by decide)

/-- Environment of the C5 counterexample: the geth keystore holds one wallet
and the Ledger hub discovery fails. -/
def envC5 : WalletEnv :=
  ⟨["home", "u", ".ethereum"], .ok ["home", "u"], "linux", mainnetChainID,
    fun d =>
      if d = gethKeydir ["home", "u", ".ethereum"] mainnetChainID then [4] else [],
    .error "no Ledger hub"⟩

/-- Claim C5 counterexample: the geth backend reports a wallet, the Ledger
hub discovery fails, and ObtainWallets aborts with the hub error instead of
returning the union of the remaining local keystore accounts. -/
theorem C5_counterexample :
    obtainGethWallets envC5 =
      .ok [Wallet.keystore (gethKeydir envC5.dataDir envC5.chainID) 4] ∧
    ObtainWallets envC5 = .error "no Ledger hub" := by decide

/-- Claim C5 amended: a hardware-hub device discovery failure aborts backend
enumeration: when the Ledger hub reports an error and the Parity keystore
resolves, ObtainWallets returns the hub error and no wallets from the other
backends; when the Parity keystore itself fails, that earlier error is
returned instead. -/
theorem C5_hub_error_aborts (env : WalletEnv) (e : String)
    (hhub : env.ledgerHub = .error e) :
    (∀ ws, obtainParityWallets env = .ok ws → ObtainWallets env = .error e) ∧
    (∀ e', obtainParityWallets env = .error e' →
      ObtainWallets env = .error e') := by
  constructor
  · intro ws hp
    simp [ObtainWallets, obtainGethWallets, obtainLedgerWallets, hp, hhub]
  · intro e' hp
    simp [ObtainWallets, obtainGethWallets, hp]

/-- Witness for C5 amended: empty keystores, absent hub. -/
theorem C5_hub_error_aborts_witness :
    ObtainWallets ⟨["d"], .ok ["h"], "linux", 1, fun _ => [], .error "hub absent"⟩ =
      .error "hub absent" :=
  (C5_hub_error_aborts ⟨["d"], .ok ["h"], "linux", 1, fun _ => [], .error "hub absent"⟩
      "hub absent" rfl).1 [] (by decide)

lemma obtainAccountIn_not_mem (wallet : SigningWallet) (address : Address)
    (passphrase : String) (l : List Address) (h : address ∉ l) :
    obtainAccountIn wallet address passphrase l = .error "account not found" := by
  induction l with
  | nil => rfl
  | cons a rest ih =>
    simp only [List.mem_cons, not_or] at h
    unfold obtainAccountIn
    rw [if_neg h.1]
    exact ih h.2

lemma obtainAccountIn_mem_nopass (wallet : SigningWallet) (address : Address)
    (l : List Address) (h : address ∈ l) :
    obtainAccountIn wallet address "" l = .ok address := by
  induction l with
  | nil => cases h
  | cons a rest ih =>
    unfold obtainAccountIn
    by_cases he : address = a
    · rw [if_pos he, if_neg (fun hc => hc.1 rfl), he]
    · rw [if_neg he]
      rcases List.mem_cons.mp h with h' | h'
      · exact absurd h' he
      · exact ih h'

lemma obtainAccountIn_mem_badpass (wallet : SigningWallet) (address : Address)
    (passphrase : String) (l : List Address) (hp : passphrase ≠ "")
    (h : address ∈ l)
    (hv : VerifyPassphrase wallet address passphrase = false) :
    obtainAccountIn wallet address passphrase l = .error "invalid passphrase" := by
  induction l with
  | nil => cases h
  | cons a rest ih =>
    unfold obtainAccountIn
    by_cases he : address = a
    · rw [if_pos he, if_pos ⟨hp, he ▸ hv⟩]
    · rw [if_neg he]
      rcases List.mem_cons.mp h with h' | h'
      · exact absurd h' he
      · exact ih h'

lemma obtainAccountIn_mem_goodpass (wallet : SigningWallet) (address : Address)
    (passphrase : String) (l : List Address) (h : address ∈ l)
    (hv : VerifyPassphrase wallet address passphrase = true) :
    obtainAccountIn wallet address passphrase l = .ok address := by
  induction l with
  | nil => cases h
  | cons a rest ih =>
    unfold obtainAccountIn
    by_cases he : address = a
    · have hva : VerifyPassphrase wallet a passphrase = true := he ▸ hv
      rw [if_pos he, if_neg (fun hc => by rw [hva] at hc; simp at hc), he]
    · rw [if_neg he]
      rcases List.mem_cons.mp h with h' | h'
      · exact absurd h' he
      · exact ih h'

lemma obtainAccountIn_ok (wallet : SigningWallet) (address : Address)
    (passphrase : String) (l : List Address) (a : Address)
    (h : obtainAccountIn wallet address passphrase l = .ok a) : a = address := by
  induction l with
  | nil => simp [obtainAccountIn] at h
  | cons b rest ih =>
    unfold obtainAccountIn at h
    by_cases he : address = b
    · rw [if_pos he] at h
      split at h
      · exact absurd h (by simp)
      · injection h with h2
        exact (he.trans h2).symm
    · rw [if_neg he] at h
      exact ih h

/-- Claim C6: ObtainAccount verifies a non-empty passphrase by requesting a
detached signature over the fixed constant zero payload; any signing error
yields the invalid-passphrase failure with no account returned, a successful
signature is discarded (the result carries only the input address), the
verification is skipped entirely when the passphrase is empty, and an
address absent from the wallet fails with account-not-found. -/
theorem C6_resolve_account (wallet : SigningWallet) (address : Address)
    (passphrase : String) :
    (address ∉ wallet.accounts →
      ObtainAccount wallet address passphrase = .error "account not found") ∧
    (passphrase = "" →
      ObtainAccount wallet address passphrase =
        (if address ∈ wallet.accounts then .ok address
         else .error "account not found") ∧
      ∀ f, ObtainAccount ⟨wallet.accounts, f⟩ address passphrase =
        ObtainAccount wallet address passphrase) ∧
    (passphrase ≠ "" → address ∈ wallet.accounts →
      exceptIsOk (wallet.signData address passphrase "application/octet-stream"
        verifyData) = false →
      ObtainAccount wallet address passphrase = .error "invalid passphrase") ∧
    (passphrase ≠ "" → address ∈ wallet.accounts →
      exceptIsOk (wallet.signData address passphrase "application/octet-stream"
        verifyData) = true →
      ObtainAccount wallet address passphrase = .ok address) ∧
    (∀ a, ObtainAccount wallet address passphrase = .ok a → a = address) := by
  refine ⟨?_, ?_, ?_, ?_, ?_⟩
  · intro h
    exact obtainAccountIn_not_mem wallet address passphrase wallet.accounts h
  · intro hp
    subst hp
    constructor
    · by_cases hm : address ∈ wallet.accounts
      · rw [if_pos hm]
        exact obtainAccountIn_mem_nopass wallet address wallet.accounts hm
      · rw [if_neg hm]
        exact obtainAccountIn_not_mem wallet address "" wallet.accounts hm
    · intro f
      by_cases hm : address ∈ wallet.accounts
      · exact (obtainAccountIn_mem_nopass ⟨wallet.accounts, f⟩ address
            wallet.accounts hm).trans
          (obtainAccountIn_mem_nopass wallet address wallet.accounts hm).symm
      · exact (obtainAccountIn_not_mem ⟨wallet.accounts, f⟩ address ""
            wallet.accounts hm).trans
          (obtainAccountIn_not_mem wallet address "" wallet.accounts hm).symm
  · intro hp hm hv
    exact obtainAccountIn_mem_badpass wallet address passphrase wallet.accounts hp hm hv
  · intro hp hm hv
    exact obtainAccountIn_mem_goodpass wallet address passphrase wallet.accounts hm hv
  · intro a h
    exact obtainAccountIn_ok wallet address passphrase wallet.accounts a h

/-- Wallet of the C6 witness: accounts 4 and 9; signing succeeds only for
account 9 with passphrase pw. -/
def walletC6 : SigningWallet :=
  ⟨[4, 9], fun a p _ _ => if a = 9 ∧ p = "pw" then .ok [1] else .error "cannot sign"⟩

/-- Witness for C6: the three resolution outcomes at concrete inputs. -/
theorem C6_resolve_account_witness :
    ObtainAccount walletC6 9 "pw" = .ok 9 ∧
    ObtainAccount walletC6 9 "bad" = .error "invalid passphrase" ∧
    ObtainAccount walletC6 5 "pw" = .error "account not found" :=
  ⟨(C6_resolve_account walletC6 9 "pw").2.2.2.1 (by decide) (by decide) (by decide),
   (C6_resolve_account walletC6 9 "bad").2.2.1 (by decide) (by decide) (by decide),
   (C6_resolve_account walletC6 5 "pw").1 (by decide)⟩

/-- Claim C2: with a no-longer-pending referenced transaction the up command
always fails with the already-mined error and never returns a transaction;
with a pending one, the built replacement copies the original fields to,
value, gas limit, data and nonce verbatim, re-derives the from address as the
original transaction recoverable sender, and changes only the gas price. -/
theorem C2_replacement_build (env : UpEnv) (tx : Tx) :
    (env.transactionStr ≠ "" → env.txByHash = .ok (tx, false) →
      transactionUpRun env = .failed "Transaction has already been mined" ∧
      builtTransaction (transactionUpRun env) = none) ∧
    (env.txByHash = .ok (tx, true) →
      ∀ s, builtTransaction (transactionUpRun env) = some s →
        s.tx.toAddr = tx.toAddr ∧ s.tx.value = tx.value ∧
        s.tx.gasLimit = tx.gasLimit ∧ s.tx.data = tx.data ∧
        s.tx.nonce = tx.nonce ∧ env.txFrom tx = .ok s.sender ∧
        s.tx = replacementTx tx s.tx.gasPrice) := by
  constructor
  · intro hts htx
    have hrun : transactionUpRun env = .failed "Transaction has already been mined" := by
      simp [transactionUpRun, hts, htx]
    exact ⟨hrun, by rw [hrun]; rfl⟩
  · intro htx s hs
    by_cases hts : env.transactionStr = ""
    · rw [show transactionUpRun env = .failed "--transaction is required" from by
        simp [transactionUpRun, hts]] at hs
      simp [builtTransaction] at hs
    · rcases hgp : env.gaspriceArg with _ | p
      · have hrun := transactionUpRun_pending_auto env tx hts htx hgp
        rw [hrun] at hs
        have hb := upFinish_built env tx (minGasPrice tx.gasPrice) s hs
        refine ⟨?_, ?_, ?_, ?_, ?_, hb.2, ?_⟩ <;> rw [hb.1] <;> rfl
      · have hrun := transactionUpRun_pending_supplied env tx p hts htx hgp
        by_cases hgt : p > minGasPrice tx.gasPrice
        · rw [if_pos hgt] at hrun
          rw [hrun] at hs
          have hb := upFinish_built env tx p s hs
          refine ⟨?_, ?_, ?_, ?_, ?_, hb.2, ?_⟩ <;> rw [hb.1] <;> rfl
        · rw [if_neg hgt] at hrun
          rw [hrun] at hs
          simp [builtTransaction] at hs

/-- Transaction of the C2 witness. -/
def txC2 : Tx := ⟨some 2, 10, 21000, 100, 7, [1, 2]⟩

/-- Environment of the C2 witness: the referenced transaction has already
been mined. -/
def envC2 : UpEnv :=
  ⟨"0xab", .ok (txC2, false), none, fun _ => .ok 9, fun _ _ => .ok [5],
    fun _ => [], true, false, .ok ()⟩

/-- Witness for C2: the already-mined failure at a concrete environment. -/
theorem C2_replacement_build_witness :
    transactionUpRun envC2 = .failed "Transaction has already been mined" ∧
    builtTransaction (transactionUpRun envC2) = none :=
  (C2_replacement_build envC2 txC2).1 (by decide) rfl

lemma transactionUpRun_sendResult (env : UpEnv) (r : Except String Unit)
    (hoff : env.offline = true) :
    transactionUpRun { env with sendResult := r } = transactionUpRun env := by
  rcases env with ⟨ts, tbh, gpa, tf, sg, enc, off, q, sr⟩
  cases off
  · exact absurd hoff (Bool.false_ne_true)
  · rfl

lemma contractSendRun_sendResult (senv : SendEnv) (r : Except String Unit)
    (hoff : senv.offline = true) :
    contractSendRun { senv with sendResult := r } = contractSendRun senv := by
  rcases senv with ⟨fs, rf, cs, pc, pk, ct, rc, am, gl, nc, gp, sg, enc, off, q, sr⟩
  cases off
  · exact absurd hoff (Bool.false_ne_true)
  · rfl

lemma transactionUpRun_offline (env : UpEnv) (hoff : env.offline = true) :
    (∀ s, transactionUpRun env ≠ .submitted s) ∧
    (∀ s out, transactionUpRun env = .offlineDone s out →
      out = (if env.quiet = true then []
        else ["0x" ++ hexEncode (env.encodeRLP s)])) := by
  unfold transactionUpRun upFinish createSignedTransaction
  rw [hoff]
  constructor
  · intro s
    repeat' split
    all_goals simp_all
  · intro s out
    repeat' split
    all_goals
      intro h
      first
        | exact Outcome.noConfusion h
        | (simp only [Outcome.offlineDone.injEq] at h
           obtain ⟨h1, h2⟩ := h
           subst h1
           subst h2
           rfl)

lemma contractSendRun_offline (senv : SendEnv) (hoff : senv.offline = true) :
    (∀ s, contractSendRun senv ≠ .submitted s) ∧
    (∀ s out, contractSendRun senv = .offlineDone s out →
      out = (if senv.quiet = true then []
        else ["0x" ++ hexEncode (senv.encodeRLP s)])) := by
  unfold contractSendRun createSignedTransaction
  rw [hoff]
  constructor
  · intro s
    repeat' split
    all_goals simp_all
  · intro s out
    repeat' split
    all_goals
      intro h
      first
        | exact Outcome.noConfusion h
        | (simp only [Outcome.offlineDone.injEq] at h
           obtain ⟨h1, h2⟩ := h
           subst h1
           subst h2
           rfl)

/-- Transaction of the C7 counterexample. -/
def txC7 : Tx := ⟨some 2, 10, 21000, 100, 7, []⟩

/-- Environment of the C7 counterexample: offline and quiet both set, with an
unreachable network. -/
def envC7 : UpEnv :=
  ⟨"0xab", .ok (txC7, true), none, fun _ => .ok 9, fun _ _ => .ok [1],
    fun _ => [222, 173], true, true, .error "network unreachable"⟩

/-- Claim C7 counterexample: with the offline and quiet flags both set the
offline path of the up command prints nothing, not the 0x-prefixed hex
encoding the claim promises for every offline run. -/
theorem C7_counterexample :
    transactionUpRun envC7 =
      .offlineDone ⟨⟨some 2, 10, 21000, 111, 7, []⟩, 9, [1]⟩ [] ∧
    "0x" ++ hexEncode (envC7.encodeRLP ⟨⟨some 2, 10, 21000, 111, 7, []⟩, 9, [1]⟩) =
      "0xdead" ∧
    ([] : List String) ≠ ["0xdead"] := by decide

/-- Claim C7 corrected: when the offline flag is set no network broadcast is
performed after signing — the run result is independent of the broadcast
outcome and is never the submitted outcome — and an offline completion exits
with the success status; when additionally the quiet flag is unset, the
output is exactly the 0x-prefixed lowercase hex encoding of the canonical
RLP encoding of the signed transaction.  The same holds for the contract
send command. -/
theorem C7_offline_emit (env : UpEnv) (senv : SendEnv)
    (hoff : env.offline = true) (hsoff : senv.offline = true) :
    (∀ r, transactionUpRun { env with sendResult := r } = transactionUpRun env) ∧
    (∀ s, transactionUpRun env ≠ .submitted s) ∧
    (∀ s out, transactionUpRun env = .offlineDone s out →
      exitStatus (transactionUpRun env) = some 0 ∧
      (env.quiet = false → out = ["0x" ++ hexEncode (env.encodeRLP s)])) ∧
    (∀ r, contractSendRun { senv with sendResult := r } = contractSendRun senv) ∧
    (∀ s, contractSendRun senv ≠ .submitted s) ∧
    (∀ s out, contractSendRun senv = .offlineDone s out →
      exitStatus (contractSendRun senv) = some 0 ∧
      (senv.quiet = false → out = ["0x" ++ hexEncode (senv.encodeRLP s)])) := by
  obtain ⟨hupNoSubmit, hupOut⟩ := transactionUpRun_offline env hoff
  obtain ⟨hcsNoSubmit, hcsOut⟩ := contractSendRun_offline senv hsoff
  refine ⟨fun r => transactionUpRun_sendResult env r hoff, hupNoSubmit, ?_,
    fun r => contractSendRun_sendResult senv r hsoff, hcsNoSubmit, ?_⟩
  · intro s out h
    refine ⟨by rw [h]; rfl, ?_⟩
    intro hq
    have hout := hupOut s out h
    rw [hq] at hout
    simpa using hout
  · intro s out h
    refine ⟨by rw [h]; rfl, ?_⟩
    intro hq
    have hout := hcsOut s out h
    rw [hq] at hout
    simpa using hout

/-- Environment of the C7 witness: offline set, quiet unset. -/
def envC7w : UpEnv :=
  ⟨"0xab", .ok (txC7, true), none, fun _ => .ok 9, fun _ _ => .ok [1],
    fun _ => [222, 173], true, false, .ok ()⟩

/-- Send environment of the C7 witness. -/
def senvC7w : SendEnv :=
  ⟨"0xc", .ok 3, "f()", .ok (), .ok [1, 2], "0xd", .ok 8, none, 21000, 5, 100,
    fun _ _ => .ok [7], fun _ => [190, 239], true, false, .ok ()⟩

/-- Witness for C7 corrected: the run is unchanged by an unreachable network
and the concrete offline run prints the 0x-prefixed encoding. -/
theorem C7_offline_emit_witness :
    transactionUpRun { envC7w with sendResult := .error "no net" } =
      transactionUpRun envC7w ∧
    (envC7w.quiet = false →
      ["0xdead"] = ["0x" ++ hexEncode (envC7w.encodeRLP
        ⟨⟨some 2, 10, 21000, 111, 7, []⟩, 9, [1]⟩)]) :=
  ⟨(C7_offline_emit envC7w senvC7w rfl rfl).1 (.error "no net"),
   ((C7_offline_emit envC7w senvC7w rfl rfl).2.2.1
      ⟨⟨some 2, 10, 21000, 111, 7, []⟩, 9, [1]⟩ ["0xdead"] (by decide)).2⟩

/-- Environment of the C9 witness: offline and quiet both set. -/
def envC9 : UpEnv :=
  ⟨"0xcd", .ok (txC7, true), none, fun _ => .ok 9, fun _ _ => .ok [3],
    fun _ => [1, 2], true, true, .ok ()⟩

/-- Send environment of the C9 witness: offline and quiet both set. -/
def senvC9 : SendEnv :=
  ⟨"0xc", .ok 3, "f()", .ok (), .ok [1, 2], "0xd", .ok 8, none, 21000, 5, 100,
    fun _ _ => .ok [7], fun _ => [190, 239], true, true, .ok ()⟩

/-- Claim C9: when both the offline and quiet flags are set, the offline path
of the up and contract send commands writes no output at all — the
0x-prefixed encoded transaction is printed nowhere — yet the run still exits
with the success status, and the transaction is never broadcast. -/
theorem C9_offline_quiet (env : UpEnv) (senv : SendEnv)
    (hoff : env.offline = true) (hq : env.quiet = true)
    (hsoff : senv.offline = true) (hsq : senv.quiet = true) :
    (∀ s out, transactionUpRun env = .offlineDone s out →
      out = [] ∧ exitStatus (transactionUpRun env) = some 0) ∧
    (∀ s, transactionUpRun env ≠ .submitted s) ∧
    (∀ s out, contractSendRun senv = .offlineDone s out →
      out = [] ∧ exitStatus (contractSendRun senv) = some 0) ∧
    (∀ s, contractSendRun senv ≠ .submitted s) := by
  obtain ⟨hupNoSubmit, hupOut⟩ := transactionUpRun_offline env hoff
  obtain ⟨hcsNoSubmit, hcsOut⟩ := contractSendRun_offline senv hsoff
  refine ⟨?_, hupNoSubmit, ?_, hcsNoSubmit⟩
  · intro s out h
    have hout := hupOut s out h
    rw [hq] at hout
    simp only [if_pos rfl] at hout
    exact ⟨hout, by rw [h]; rfl⟩
  · intro s out h
    have hout := hcsOut s out h
    rw [hsq] at hout
    simp only [if_pos rfl] at hout
    exact ⟨hout, by rw [h]; rfl⟩

/-- Witness for C9: at a concrete offline quiet run the output is empty, the
exit status is the success status, and the encoded transaction is silently
discarded. -/
theorem C9_offline_quiet_witness :
    ([] : List String) = [] ∧ exitStatus (transactionUpRun envC9) = some 0 :=
  (C9_offline_quiet envC9 senvC9 rfl rfl rfl rfl).1
    ⟨⟨some 2, 10, 21000, 111, 7, []⟩, 9, [3]⟩ [] (by decide)

/-- Claim C8 counterexample: on Linux for mainnet the Parity key directory
ends in the chain subdirectory ethereum, placed below the fixed keys
directory, so the keystore directory is not the leaf component the claim
describes. -/
theorem C8_counterexample :
    parityKeydir (.ok ["home", "u"]) "linux" mainnetChainID =
      .ok ["home", "u", ".local", "share", "io.parity.ethereum", "keys",
        "ethereum"] ∧
    (["home", "u", ".local", "share", "io.parity.ethereum", "keys",
      "ethereum"] : Path).getLast? = some "ethereum" ∧
    ("ethereum" : String) ≠ "keys" ∧
    ("ethereum" : String) ≠ "keystore" := by decide

/-- Claim C8 amended: Parity local-keystore path resolution branches on
exactly three host operating systems — a Windows path, a macOS path and a
Linux path, each rooted at the user home directory and containing the fixed
keys keystore directory, further namespaced beneath it by a chain-specific
subpath (ethereum for mainnet, test for testnet, nothing for other chains,
so the chain subpath rather than the keystore directory is the leaf when
present) — and both obtainParityWallet and obtainParityWallets fail hard
with the unsupported-OS error for every other operating system. -/
theorem C8_parity_os_branches (env : WalletEnv) (home : Path)
    (address : Address) (hh : env.homeDir = .ok home) :
    (env.goos = "windows" →
      parityKeydir env.homeDir env.goos env.chainID =
        .ok (parityChainKeydir
          (home ++ ["AppData", "Roaming", "Parity", "Ethereum", "keys"])
          env.chainID)) ∧
    (env.goos = "darwin" →
      parityKeydir env.homeDir env.goos env.chainID =
        .ok (parityChainKeydir
          (home ++ ["Library", "Application Support", "io.parity.ethereum",
            "keys"]) env.chainID)) ∧
    (env.goos = "linux" →
      parityKeydir env.homeDir env.goos env.chainID =
        .ok (parityChainKeydir
          (home ++ [".local", "share", "io.parity.ethereum", "keys"])
          env.chainID)) ∧
    (env.goos ≠ "windows" → env.goos ≠ "darwin" → env.goos ≠ "linux" →
      obtainParityWallet env address = .error "Unsupported operating system" ∧
      obtainParityWallets env = .error "Unsupported operating system") := by
  refine ⟨?_, ?_, ?_, ?_⟩
  · intro hg
    simp [parityKeydir, parityOSKeydir, hh, hg]
  · intro hg
    simp [parityKeydir, parityOSKeydir, hh, hg]
  · intro hg
    simp [parityKeydir, parityOSKeydir, hh, hg]
  · intro h1 h2 h3
    have hk : parityKeydir env.homeDir env.goos env.chainID =
        .error "Unsupported operating system" := by
      simp [parityKeydir, parityOSKeydir, hh, h1, h2, h3]
    exact ⟨by simp [obtainParityWallet, hk], by simp [obtainParityWallets, hk]⟩

/-- Witness for C8 amended: an unrecognized operating system makes both
Parity lookups fail, and the Linux mainnet path is computed concretely. -/
theorem C8_parity_os_branches_witness :
    obtainParityWallets ⟨["d"], .ok ["h"], "plan9", 1, fun _ => [], .ok []⟩ =
      .error "Unsupported operating system" ∧
    parityKeydir (Except.ok ["h"] : Except String Path) "linux" 1 =
      .ok (parityChainKeydir
        (["h"] ++ [".local", "share", "io.parity.ethereum", "keys"]) 1) :=
  ⟨((C8_parity_os_branches ⟨["d"], .ok ["h"], "plan9", 1, fun _ => [], .ok []⟩
      ["h"] 4 rfl).2.2.2 (by decide) (by decide) (by decide)).2,
   (C8_parity_os_branches ⟨["d"], .ok ["h"], "linux", 1, fun _ => [], .ok []⟩
      ["h"] 4 rfl).2.2.1 rfl⟩

end Ethereal
